import Mathlib

/-!
Verification of the portfolio web application (`app.py`) against its
natural-language specification.  The Python source is shallowly embedded:
pure computations become Lean functions, Streamlit rendering calls become
an emitted list of `Element` values, and widget values (radio selections,
sliders, toggles) together with the state of the file system become
explicit parameters.  All definitions are translated from the source file
`app.py`; definitions that instead formalise a sentence of the
specification (for comparison against the source) say so in their doc
comment.
-/

namespace Portfolio

/-! ## String primitives

Python string operations used by `app.py`, modelled over `String.data`
(a list of unicode characters). -/

/-- Python `s.lower()`, modelled as character-wise lowercasing
(`Char.toLower`; for the ASCII content relevant here this agrees with
Python). -/
def pyLower (s : String) : String :=
  String.mk (s.data.map Char.toLower)

/-- Python substring test `q in text` (contiguous occurrence). -/
def strIn (q text : String) : Bool :=
  (List.range (text.data.length + 1)).any
    (fun i => q.data.isPrefixOf (text.data.drop i))

/-- Python truthiness of an optional string field fetched with
`d.get(k)`: falsy when the key is absent or the value is the empty
string. -/
def truthy (o : Option String) : Bool :=
  match o with
  | none => false
  | some s => !s.data.isEmpty

/-! ## Data model

A record of `projects.json` (section 6 of the spec, and the keys read by
`app.py`).  `title` is required by the code (`p["title"]`); the other
fields are read with `.get` and a default, so they are optional. -/

structure Project where
  title : String
  image : String
  blurb : Option String
  tags : List String
  links : List (String × String)
deriving DecidableEq

/-- A record of `experiences.json` as read by `render_experiential`.
The code reads the long-form text under the key `body_md`; the field
`body` is carried as well because the spec names a `body` key, so that
the two can be compared. -/
structure Experience where
  title : Option String
  image : Option String
  date : Option String
  tags : List String
  lede : Option String
  facts : List String
  body : Option String
  body_md : Option String
deriving DecidableEq

/-! ## Rendering surface

One constructor per kind of Streamlit call made by `app.py`.  Rendering
is modelled as the list of elements emitted in source order; column
placement (`st.columns`) is visual layout only, and the contents of a
`with st.expander(...)` block follow its `expanderHeader` marker. -/

inductive Element where
  | error (msg : String)
  | info (msg : String)
  | title (s : String)
  | caption (s : String)
  | write (s : String)
  | markdown (s : String)
  | subheader (s : String)
  | image (path : String)
  | downloadButton (fileName : String)
  | radio (label : String) (options : List String)
  | slider (label : String) (lo hi step : Nat)
  | linkButton (label : String) (url : String)
  | iframe
  | rasterImage (width : Nat)
  | expanderHeader (label : String)
  | divider
deriving DecidableEq

/-! ## Content store (`load_projects`, `load_experiences_with_ttl`)

The file system is passed explicitly: `none` models an absent JSON file,
`some data` a present file whose JSON array parses to `data` (malformed
JSON is a fatal parse error in the source and is outside this model). -/

/-- Sort key of `load_projects`: `lambda d: d["title"].lower()`. -/
def titleKey (d : Project) : String := pyLower d.title

/-- Boolean comparison on the sort key, as used by Python `sorted`. -/
def projLe (a b : Project) : Bool := decide (titleKey a ≤ titleKey b)

/-- Error message emitted by `load_projects` when `projects.json` is
absent (app.py lines 26-29). -/
def missingProjectsMsg : String :=
  "Missing `projects.json`. Create it in the same folder as this file. Also add your PNGs under `assets/`."

/-- `load_projects` (app.py lines 22-32): returns the emitted elements
and the resulting project list.  Python `sorted` (a stable sort by key)
is modelled by `List.mergeSort` on the key comparison. -/
def load_projects (file : Option (List Project)) : List Element × List Project :=
  match file with
  | none => ([Element.error missingProjectsMsg], [])
  | some data => ([], data.mergeSort projLe)

/-- `load_experiences_with_ttl` (app.py lines 34-39): empty list when
`experiences.json` is absent, the parsed array otherwise.  The 60-second
TTL governs cache invalidation only and does not change the value. -/
def load_experiences_with_ttl (file : Option (List Experience)) : List Experience :=
  match file with
  | none => []
  | some data => data

/-! ## Filter engine (`matches`, app.py lines 83-93)

The Python function closes over the sidebar globals `selected` and
`query`; here they are explicit parameters. -/

/-- First rejection test of `matches`:
`if selected and not set(selected).intersection(set(p.get("tags", [])))`. -/
def tagReject (selected : List String) (p : Project) : Bool :=
  !selected.isEmpty && !(selected.any (fun t => p.tags.contains t))

/-- Second rejection test of `matches`: with `q = query.lower()` and
`text = (p["title"] + " " + p.get("blurb", "")).lower()`, reject when
`q not in text`.  Note the single space the source inserts between title
and blurb. -/
def textReject (query : String) (p : Project) : Bool :=
  !query.data.isEmpty &&
    !(strIn (pyLower query) (pyLower (p.title ++ " " ++ p.blurb.getD "")))

/-- `matches(p)` with the criteria passed explicitly. -/
def «matches» (selected : List String) (query : String) (p : Project) : Bool :=
  if tagReject selected p then false
  else if textReject query p then false
  else true

/-- The filtered list computed at the top of `render_showcase`:
`[p for p in projects if matches(p)]`. -/
def showcaseFiltered (projects : List Project) (selected : List String)
    (query : String) : List Project :=
  projects.filter (fun p => «matches» selected query p)

/-! ## Showcase view (`render_card`, `render_showcase`)

Asset files are modelled by a predicate `ae : String → Bool` telling
whether `assets/<name>` exists on disk. -/

/-- `render_card(p)` (app.py lines 58-81).  The two `st.columns` only
position content; elements are listed in emission order.  The links row
shows `n = min(4, len(links))` buttons because `zip` with the `n`
column objects truncates `links.items()` to its first `n` entries. -/
def renderCard (ae : String → Bool) (p : Project) : List Element :=
  (if ae p.image then
    [Element.image ("assets/" ++ p.image)]
   else
    [Element.markdown ("🖼️ *Missing image:* `" ++ p.image ++ "`"),
     Element.caption "Place it under `assets/` with this exact filename."]) ++
  [Element.subheader p.title] ++
  (if !p.tags.isEmpty then [Element.caption (String.intercalate ", " p.tags)] else []) ++
  [Element.write (p.blurb.getD "")] ++
  (if !p.links.isEmpty then
    (p.links.take (min 4 p.links.length)).map (fun lu => Element.linkButton lu.1 lu.2)
   else [])

/-- The `st.title` text of the showcase view (app.py line 98). -/
def showcaseTitle : String := "Portfolio Showcase: Projects I\x27m Proud Of"

/-- The introduction markdown of the showcase view (app.py lines 99-103). -/
def showcaseIntro : String :=
  "Hi, I\x27m Ralph Vincent Ta-asan — a data storyteller, strategist, and an explorer. Here’s a curated selection of the projects I’ve poured my heart and skills into, spanning data science, business intelligence, creative tech, and strategic research. Use the filters on the left to explore how I think, build, and tell stories through data."

/-- The spacer markdown inserted after each card (app.py lines 111/115). -/
def cardSpacer : String := "<div style=\x27height: 1rem\x27></div>"

/-- `render_showcase()` (app.py lines 95-115).  `wide` is the
two-column toggle; it only changes which column a card lands in, and
both loops emit `render_card(p)` plus a spacer for each filtered
project in the same order, so the emitted element list is the same in
both branches. -/
def renderShowcase (ae : String → Bool) (projects : List Project)
    (selected : List String) (query : String) (wide : Bool) : List Element :=
  let filtered := showcaseFiltered projects selected query
  let cards := (filtered.map (fun p => renderCard ae p ++ [Element.markdown cardSpacer])).flatten
  [Element.title showcaseTitle,
   Element.markdown showcaseIntro,
   Element.write ("Showing **" ++ toString filtered.length ++ "** of **"
     ++ toString projects.length ++ "** projects.")] ++
  (if wide then cards else cards)

/-! ## Résumé view (`render_resume`, app.py lines 117-171) -/

/-- String form of `RESUME_PATH` (app.py line 19). -/
def RESUME_PATH : String := "assets/Ta-asan Ralph Vincent - Résumé.pdf"

/-- `RESUME_PATH.name`, the download file name (app.py line 130). -/
def resumeFileName : String := "Ta-asan Ralph Vincent - Résumé.pdf"

/-- Instructional message shown in Clean mode without PyMuPDF
(app.py line 145). -/
def pymupdfMsg : String :=
  "For the clean viewer, install PyMuPDF: `pip install pymupdf`"

/-- `render_resume()`.  Parameters: `resumeExists` — the résumé file is
on disk; `havePymupdf` — the `import fitz` at the top of the file
succeeded (`HAVE_PYMUPDF`); `mode` — the value of the Viewer radio;
`displayPx` — the value of the width slider; `numPages` — number of
pages of the PDF document.  When PyMuPDF is missing and the mode is
Clean, control falls through to the Standard iframe after the info
message (the `return` is only in the rasterizing branch). -/
def renderResume (resumeExists havePymupdf : Bool) (mode : String)
    (displayPx numPages : Nat) : List Element :=
  [Element.title "Electronic Résumé",
   Element.caption "View inline, print directly, or download the PDF version."] ++
  if !resumeExists then
    [Element.error ("Résumé file not found at: " ++ RESUME_PATH),
     Element.info "Place your PDF in the assets/ folder with that exact filename."]
  else
    [Element.downloadButton resumeFileName,
     Element.radio "Viewer" ["Clean", "Standard"]] ++
    if mode == "Clean" then
      if !havePymupdf then
        [Element.info pymupdfMsg, Element.iframe]
      else
        [Element.slider "Résumé width" 600 1200 50] ++
        (List.range numPages).map (fun _ => Element.rasterImage displayPx)
    else
      [Element.iframe]

/-! ## Experiential view (`render_experiential`, app.py lines 173-220) -/

/-- The caption under the experiential title (app.py line 175). -/
def xpCaption : String :=
  "Volunteer work, student organization involvement, apprenticeships, field trips, special projects and employment. Upload and describe photos, job descriptions and completed projects."

/-- The metadata caption of a Feature entry (app.py line 191):
`" - ".join(filter(None, [exp.get("date", ""), ", ".join(exp.get("tags", []))]))`. -/
def metaLine (e : Experience) : String :=
  String.intercalate " - "
    (([e.date.getD "", String.intercalate ", " e.tags]).filter (fun s => !s.data.isEmpty))

/-- One record of the Feature layout (app.py lines 184-206). -/
def featureEntry (ae : String → Bool) (e : Experience) : List Element :=
  (if ae (e.image.getD "") then [Element.image ("assets/" ++ e.image.getD "")] else []) ++
  [Element.markdown ("## " ++ e.title.getD "")] ++
  (if !(metaLine e).data.isEmpty then [Element.caption (metaLine e)] else []) ++
  (if truthy e.lede then
    [Element.markdown ("<p style=\x27font-size:1.05rem;line-height:1.7\x27><em>"
      ++ e.lede.getD "" ++ "</em></p>")]
   else []) ++
  (if !e.facts.isEmpty then
    [Element.expanderHeader "Quick facts"] ++ e.facts.map (fun f => Element.markdown ("- " ++ f))
   else []) ++
  (if truthy e.body_md then [Element.markdown (e.body_md.getD "")] else []) ++
  [Element.divider]

/-- One record of the Cards layout (app.py lines 209-220). -/
def cardEntry (ae : String → Bool) (e : Experience) : List Element :=
  (if ae (e.image.getD "") then [Element.image ("assets/" ++ e.image.getD "")] else []) ++
  [Element.subheader (e.title.getD "")] ++
  (if truthy e.date then [Element.caption (e.date.getD "")] else []) ++
  (if truthy e.lede then [Element.write (e.lede.getD "")] else []) ++
  (if truthy e.body_md then
    [Element.expanderHeader "Read more", Element.markdown (e.body_md.getD "")]
   else []) ++
  [Element.markdown "<div style=\x27height:1rem\x27></div>"]

/-- `render_experiential()`.  `mode` is the value of the Layout radio. -/
def renderExperiential (ae : String → Bool) (experiences : List Experience)
    (mode : String) : List Element :=
  [Element.title "Experiential Learning", Element.caption xpCaption] ++
  if experiences.isEmpty then
    [Element.info "Add items to `experiences.json` and images to `assets/` to populate this page."]
  else
    [Element.radio "Layout" ["Feature", "Cards"]] ++
    if mode == "Feature" then
      (experiences.map (featureEntry ae)).flatten
    else
      (experiences.map (cardEntry ae)).flatten

/-! ## Top-level script (name resolution)

The module body of `app.py` is a sequence of statements.  Each statement
is abstracted to the set of global names it reads at execution time, the
global names it binds, and whether it renders one of the four views.
Python resolves a global name when the statement runs; a name that is
not bound raises `NameError` and aborts the script.  Name resolution
does not consult the input files, so this model covers every input-file
configuration. -/

structure PyStmt where
  uses : List String
  defines : List String
  rendersView : Bool
deriving DecidableEq

/-- The top-level statements of `app.py` in source order (imports,
constants, `def`s — a `def` body is not name-resolved at definition
time — the two load calls at lines 41-44, the sidebar widgets, and the
four tab blocks that render the views). -/
def appScript : List PyStmt := [
  ⟨[], ["json"], false⟩,                                   -- line 1
  ⟨[], ["base64"], false⟩,                                 -- line 2
  ⟨[], ["st"], false⟩,                                     -- line 3
  ⟨[], ["Path"], false⟩,                                   -- line 4
  ⟨[], ["fitz", "HAVE_PYMUPDF"], false⟩,                   -- lines 6-10
  ⟨["st"], [], false⟩,                                     -- lines 12-16
  ⟨["Path"], ["ASSETS"], false⟩,                           -- line 18
  ⟨["ASSETS"], ["RESUME_PATH"], false⟩,                    -- line 19
  ⟨["ASSETS"], ["SIGNATURE_PATH"], false⟩,                 -- line 20
  ⟨["st"], ["load_projects"], false⟩,                      -- lines 22-32
  ⟨["st"], ["load_experiences_with_ttl"], false⟩,          -- lines 34-39
  ⟨["load_experiences_with_ttl"], ["experiences"], false⟩, -- line 41
  ⟨["load_projects"], ["projects"], false⟩,                -- line 43
  ⟨["load_experiences"], ["experiences"], false⟩,          -- line 44
  ⟨["st"], [], false⟩,                                     -- line 46
  ⟨["st"], [], false⟩,                                     -- lines 48-52
  ⟨["projects"], ["all_tags"], false⟩,                     -- line 54
  ⟨["st"], ["query"], false⟩,                              -- line 55
  ⟨["st", "all_tags"], ["selected"], false⟩,               -- line 56
  ⟨[], ["render_card"], false⟩,                            -- lines 58-81
  ⟨[], ["matches"], false⟩,                                -- lines 83-93
  ⟨[], ["render_showcase"], false⟩,                        -- lines 95-115
  ⟨[], ["render_resume"], false⟩,                          -- lines 117-171
  ⟨[], ["render_experiential"], false⟩,                    -- lines 173-220
  ⟨[], ["render_reflections"], false⟩,                     -- lines 222-285
  ⟨["st"], ["tab1", "tab2", "tab3", "tab4"], false⟩,       -- lines 287-292
  ⟨["tab1", "render_showcase"], [], true⟩,                 -- lines 294-295
  ⟨["tab2", "render_resume"], [], true⟩,                   -- lines 296-297
  ⟨["tab3", "render_experiential"], [], true⟩,             -- lines 298-299
  ⟨["tab4", "render_reflections"], [], true⟩]              -- lines 300-301

/-- Runs a statement list in an environment of bound global names.
Returns the statements that completed and, if a name failed to resolve,
`some` of that name (Python raises `NameError` there and the rest of the
script never runs). -/
def runScript (env : List String) : List PyStmt → List PyStmt × Option String
  | [] => ([], none)
  | s :: rest =>
    match s.uses.find? (fun n => !env.contains n) with
    | some n => ([], some n)
    | none =>
      let r := runScript (env ++ s.defines) rest
      (s :: r.1, r.2)

/-! ## Spec-side predicate and concrete records used by the claims -/

/-- Modelled from the spec text of claim C2: the lowercased query is a
substring of the lowercased concatenation of title and blurb (a missing
blurb treated as empty).  Note: plain concatenation, with no separator —
this is the wording being compared against the source, whose `matches`
inserts a single space between title and blurb. -/
def claimedTextAccept (query : String) (p : Project) : Bool :=
  strIn (pyLower query) (pyLower (p.title ++ p.blurb.getD ""))

/-- A project on which `claimedTextAccept` and the source `matches`
disagree: the query can straddle the title/blurb boundary. -/
def pGap : Project := ⟨"ab", "none.png", some "cd", [], []⟩

/-- A concrete project for witnessing the text rule. -/
def pW2 : Project := ⟨"Data Atlas", "a.png", some "maps and charts", ["viz"], []⟩

/-- The project of the spec scenario for the tag rule:
`tags:["python","viz"]`. -/
def pViz : Project := ⟨"Viz Project", "viz.png", some "", ["python", "viz"], []⟩

/-- A concrete project for witnessing the tag rule. -/
def pW4 : Project := ⟨"Alpha", "a.png", none, ["rust"], []⟩

/-- Markdown bold markers `**` are styling, not text: the text a
markdown string displays is the string with the asterisk characters
removed. -/
def displayText (s : String) : String :=
  String.mk (s.data.filter (fun c => !(c == Char.ofNat 42)))

/-- Two experience records identical except for the `body` field, used
to show the views never read `body`. -/
def eA : Experience :=
  ⟨some "Internship", none, some "2024", [], some "lede", [], some "AAA", none⟩

/-- See `eA`. -/
def eB : Experience :=
  ⟨some "Internship", none, some "2024", [], some "lede", [], some "BBB", none⟩

/-- A concrete experience record whose `body_md` is set, for
witnessing. -/
def eW : Experience := ⟨some "T", none, none, [], none, [], none, some "BODY"⟩

/-- Modelled from the spec text of claim C8: the clean-viewer mode
control is "disabled or hidden".  The source has no disabled-widget
state anywhere, so on this embedding the claim can only mean that no
viewer selector offering the "Clean" option is rendered. -/
def cleanControlHidden (out : List Element) : Bool :=
  out.all (fun e =>
    match e with
    | Element.radio _ opts => !opts.contains "Clean"
    | _ => true)

/-- The link buttons appearing in a rendered card, in order. -/
def cardLinkButtons (out : List Element) : List (String × String) :=
  out.filterMap (fun e =>
    match e with
    | Element.linkButton l u => some (l, u)
    | _ => none)

/-! ## Helper lemmas -/

theorem pyLower_append (a b : String) : pyLower (a ++ b) = pyLower a ++ pyLower b := by
  have hmk : ∀ (x y : List Char), String.mk x ++ String.mk y = String.mk (x ++ y) :=
    fun x y => rfl
  simp only [pyLower, String.data_append, List.map_append, hmk]

theorem strIn_append_right (q a b : String) (h : strIn q a = true) :
    strIn q (a ++ b) = true := by
  unfold strIn at h ⊢
  rw [List.any_eq_true] at h ⊢
  obtain ⟨i, hi, hp⟩ := h
  rw [List.mem_range] at hi
  have hle : i ≤ a.data.length := Nat.lt_succ_iff.mp hi
  refine ⟨i, ?_, ?_⟩
  · rw [List.mem_range, String.data_append, List.length_append]
    omega
  · rw [String.data_append, List.drop_append_of_le_length hle]
    have hp2 : q.data <+: a.data.drop i := by simpa using hp
    simpa using hp2.trans (List.prefix_append _ _)

theorem projLe_trans (a b c : Project) (h1 : projLe a b) (h2 : projLe b c) :
    projLe a c :=
  decide_eq_true (le_trans (of_decide_eq_true h1) (of_decide_eq_true h2))

theorem projLe_total (a b : Project) : projLe a b || projLe b a := by
  rcases le_total (titleKey a) (titleKey b) with h | h
  · simp [projLe, h]
  · simp [projLe, h]

theorem matches_empty_criteria (p : Project) : «matches» [] "" p = true := rfl

theorem take_min_four (l : List (String × String)) :
    l.take (min 4 l.length) = l.take 4 := by
  rcases Nat.le_total 4 l.length with h | h
  · rw [Nat.min_eq_left h]
  · rw [Nat.min_eq_right h, List.take_length, List.take_of_length_le h]

theorem filterMap_linkButtons (l : List (String × String)) :
    List.filterMap
      (fun e =>
        match e with
        | Element.linkButton a u => some (a, u)
        | _ => none)
      (l.map (fun lu => Element.linkButton lu.1 lu.2)) = l := by
  rw [List.filterMap_map]
  exact List.filterMap_some l

theorem cardLinkButtons_renderCard (ae : String → Bool) (p : Project) :
    cardLinkButtons (renderCard ae p) = p.links.take 4 := by
  cases himg : ae p.image <;> cases htags : p.tags.isEmpty <;>
    cases hlinks : p.links.isEmpty
  all_goals
    try (rw [List.isEmpty_iff] at hlinks)
  all_goals
    simp [renderCard, cardLinkButtons, himg, htags, hlinks, List.filterMap_append,
      take_min_four]
  all_goals
    rw [← List.map_take]
    exact filterMap_linkButtons _

/-! ## Claim theorems -/

/-- C1: the module body of `app.py` raises a `NameError` at line 44
(`load_experiences` is never bound; the defined function is
`load_experiences_with_ttl`), so for every input-file configuration the
script aborts before any of the four views is rendered. -/
theorem C1_startup_name_error :
    (runScript [] appScript).2 = some "load_experiences" ∧
    (runScript [] appScript).1.all (fun s => !s.rendersView) = true := by
  decide

/-- C3: for every parsed project list, the sequence returned by
`load_projects` is sorted ascending by the lowercased title. -/
theorem C3_sorted_by_lower_title (data : List Project) :
    List.Pairwise (fun a b => pyLower a.title ≤ pyLower b.title)
      (load_projects (some data)).2 := by
  have h : (data.mergeSort projLe).Pairwise (fun a b => projLe a b = true) :=
    List.sorted_mergeSort projLe_trans projLe_total data
  exact h.imp (fun hab => of_decide_eq_true hab)

/-- C5: with an empty query and an empty selected-tag set, `matches`
accepts every project, and the showcase filtered list is the whole
project list. -/
theorem C5_empty_criteria :
    (∀ p : Project, «matches» [] "" p = true) ∧
    (∀ projects : List Project, showcaseFiltered projects [] "" = projects) := by
  refine ⟨fun p => matches_empty_criteria p, fun projects => ?_⟩
  exact List.filter_eq_self.mpr (fun p _ => matches_empty_criteria p)

/-- C2 counterexample: on the project with title `"ab"` and blurb
`"cd"`, the query `"bc"` is a substring of the plain concatenation
`"abcd"` — so the claim as stated predicts acceptance — but the source
builds `"ab cd"` with a separating space, and `matches` rejects. -/
theorem C2_counterexample :
    claimedTextAccept "bc" pGap = true ∧ «matches» [] "bc" pGap = false := by
  decide

/-- C2 (amended): for a non-empty query, `matches` under an empty tag
filter accepts exactly when the lowercased query is a substring of the
lowercased space-separated concatenation of title and blurb; and every
case-insensitive substring of the title alone is accepted. -/
theorem C2_text_rule :
    (∀ (p : Project) (q : String), q.data.isEmpty = false →
      («matches» [] q p = true ↔
        strIn (pyLower q) (pyLower (p.title ++ " " ++ p.blurb.getD "")) = true)) ∧
    (∀ (p : Project) (q : String),
      strIn (pyLower q) (pyLower p.title) = true → «matches» [] q p = true) := by
  constructor
  · intro p q hq
    cases hstr : strIn (pyLower q) (pyLower (p.title ++ " " ++ p.blurb.getD "")) <;>
      simp [«matches», tagReject, textReject, hq, hstr]
  · intro p q h
    have s1 : strIn (pyLower q) (pyLower (p.title ++ " ")) = true := by
      rw [pyLower_append]
      exact strIn_append_right _ _ _ h
    have s2 : strIn (pyLower q) (pyLower (p.title ++ " " ++ p.blurb.getD "")) = true := by
      rw [pyLower_append]
      exact strIn_append_right _ _ _ s1
    simp [«matches», tagReject, textReject, s2]

/-- C2 witness: both parts of `C2_text_rule` at concrete inputs. -/
theorem C2_text_rule_witness :
    («matches» [] "atlas" pW2 = true ↔
      strIn (pyLower "atlas") (pyLower (pW2.title ++ " " ++ pW2.blurb.getD "")) = true) ∧
    «matches» [] "ATLAS" pW2 = true :=
  ⟨C2_text_rule.1 pW2 "atlas" (by decide),
   C2_text_rule.2 pW2 "ATLAS" (by decide)⟩

/-- C4: a non-empty tag filter sharing no tag with the project makes
`matches` false for any query; a filter sharing at least one tag passes
the tag rule; and the spec scenario (`tags:["python","viz"]` against
`["viz"]` and against `["ml"]`) behaves as stated. -/
theorem C4_tag_rule :
    (∀ (p : Project) (T : List String) (q : String),
      T ≠ [] → (∀ t ∈ T, t ∉ p.tags) → «matches» T q p = false) ∧
    (∀ (p : Project) (T : List String),
      (∃ t ∈ T, t ∈ p.tags) → tagReject T p = false) ∧
    tagReject ["viz"] pViz = false ∧
    «matches» ["ml"] "" pViz = false := by
  refine ⟨?_, ?_, by decide, by decide⟩
  · intro p T q hT hdisj
    have h1 : T.isEmpty = false := by simp [List.isEmpty_iff, hT]
    have h2 : T.any (fun t => p.tags.contains t) = false := by
      rw [Bool.eq_false_iff]
      intro hany
      obtain ⟨t, ht, hc⟩ := List.any_eq_true.mp hany
      exact hdisj t ht (by simpa using hc)
    have htr : tagReject T p = true := by
      unfold tagReject
      rw [h1, h2]
      rfl
    unfold «matches»
    rw [htr]
    simp
  · rintro p T ⟨t, ht, hmem⟩
    have hany : T.any (fun t => p.tags.contains t) = true :=
      List.any_eq_true.mpr ⟨t, ht, by simpa using hmem⟩
    unfold tagReject
    rw [hany]
    simp

/-- C4 witness: both quantified parts of `C4_tag_rule` at concrete
inputs. -/
theorem C4_tag_rule_witness :
    «matches» ["ml"] "x" pW4 = false ∧ tagReject ["ml", "viz"] pViz = false :=
  ⟨C4_tag_rule.1 pW4 ["ml"] "x" (by decide) (by decide),
   C4_tag_rule.2.1 pViz ["ml", "viz"] ⟨"viz", by decide, by decide⟩⟩

/-- C6: with `projects.json` absent, `load_projects` emits an error
naming the missing file and returns the empty list, and the showcase
view (a total function — no crash) renders the running count whose
display text is "Showing 0 of 0 projects." for any criteria and
layout. -/
theorem C6_missing_projects_file :
    load_projects none = ([Element.error missingProjectsMsg], []) ∧
    strIn "projects.json" missingProjectsMsg = true ∧
    (∀ (ae : String → Bool) (sel : List String) (q : String) (wide : Bool),
      renderShowcase ae [] sel q wide =
        [Element.title showcaseTitle, Element.markdown showcaseIntro,
         Element.write "Showing **0** of **0** projects."]) ∧
    displayText "Showing **0** of **0** projects." = "Showing 0 of 0 projects." := by
  refine ⟨rfl, by decide, fun ae sel q wide => ?_, by decide⟩
  unfold renderShowcase showcaseFiltered
  simp only [List.filter_nil, List.map_nil, List.flatten_nil, List.append_nil,
    List.length_nil, ite_self]
  rfl

/-- C7 counterexample: the experiential views never read the `body`
key — two records identical except in `body` render identically in both
layouts, so the long-form text is not rendered from `body`. -/
theorem C7_counterexample :
    eA.body ≠ eB.body ∧
    renderExperiential (fun _ => false) [eA] "Feature" =
      renderExperiential (fun _ => false) [eB] "Feature" ∧
    renderExperiential (fun _ => false) [eA] "Cards" =
      renderExperiential (fun _ => false) [eB] "Cards" :=
  ⟨by decide, rfl, rfl⟩

/-- C7 (amended): both experiential layouts render the record's
long-form formatted text from its `body_md` key (when that key is
present and non-empty). -/
theorem C7_body_md_rendered (ae : String → Bool) (e : Experience)
    (h : truthy e.body_md = true) :
    Element.markdown (e.body_md.getD "") ∈ renderExperiential ae [e] "Feature" ∧
    Element.markdown (e.body_md.getD "") ∈ renderExperiential ae [e] "Cards" := by
  have hf : Element.markdown (e.body_md.getD "") ∈ featureEntry ae e := by
    unfold featureEntry
    rw [h]
    simp
  have hc : Element.markdown (e.body_md.getD "") ∈ cardEntry ae e := by
    unfold cardEntry
    rw [h]
    simp
  constructor
  · unfold renderExperiential
    simp [hf]
  · unfold renderExperiential
    have hm : (("Cards" : String) == "Feature") = false := by decide
    simp [hm, hc]

/-- C7 witness: `C7_body_md_rendered` at a concrete record. -/
theorem C7_body_md_witness :
    Element.markdown "BODY" ∈ renderExperiential (fun _ => false) [eW] "Feature" ∧
    Element.markdown "BODY" ∈ renderExperiential (fun _ => false) [eW] "Cards" :=
  C7_body_md_rendered (fun _ => false) eW (by decide)

/-- C8 counterexample: with the résumé present and PyMuPDF absent, the
viewer control offering the "Clean" option is still rendered (the
source never disables or hides it — "Clean" is even the default), so
the claim that the control is disabled or hidden is false. -/
theorem C8_counterexample :
    cleanControlHidden (renderResume true false "Clean" 900 1) = false ∧
    Element.radio "Viewer" ["Clean", "Standard"] ∈ renderResume true false "Clean" 900 1 ∧
    Element.radio "Viewer" ["Clean", "Standard"] ∈ renderResume true true "Clean" 900 1 := by
  refine ⟨by decide, by decide, by decide⟩

/-- C8 (amended): with the résumé present and PyMuPDF absent, the mode
control remains rendered with both options, the download button remains
available, the inline embedded viewer still renders, and when "Clean"
is selected an instructional message is shown. -/
theorem C8_no_pymupdf (mode : String) (px n : Nat) :
    Element.downloadButton resumeFileName ∈ renderResume true false mode px n ∧
    Element.radio "Viewer" ["Clean", "Standard"] ∈ renderResume true false mode px n ∧
    Element.iframe ∈ renderResume true false mode px n ∧
    (mode = "Clean" →
      Element.info pymupdfMsg ∈ renderResume true false mode px n) := by
  unfold renderResume
  cases hm : mode == "Clean" with
  | false =>
    refine ⟨by simp, by simp, by simp, fun hmode => ?_⟩
    exact absurd hmode (by simpa using hm)
  | true =>
    refine ⟨by simp, by simp, by simp, fun hmode => by simp⟩

/-- C8 witness: `C8_no_pymupdf` with the Clean mode selected. -/
theorem C8_no_pymupdf_witness :
    Element.info pymupdfMsg ∈ renderResume true false "Clean" 900 1 :=
  (C8_no_pymupdf "Clean" 900 1).2.2.2 rfl

/-- C9: with the résumé file absent, `render_resume` emits exactly the
view heading, an error naming the path, and an instruction, and then
returns: no download button, no viewer-mode selector, no slider, and no
inline or rasterized display appear, for every capability flag, mode,
width, and page count. -/
theorem C9_missing_resume (hv : Bool) (mode : String) (px n : Nat) :
    renderResume false hv mode px n =
      [Element.title "Electronic Résumé",
       Element.caption "View inline, print directly, or download the PDF version.",
       Element.error ("Résumé file not found at: " ++ RESUME_PATH),
       Element.info "Place your PDF in the assets/ folder with that exact filename."] ∧
    (renderResume false hv mode px n).all (fun e =>
      match e with
      | Element.downloadButton _ => false
      | Element.radio _ _ => false
      | Element.slider _ _ _ _ => false
      | Element.iframe => false
      | Element.rasterImage _ => false
      | _ => true) = true :=
  ⟨rfl, rfl⟩

/-- C10: a card shows the link buttons of the first
`min(4, len(links))` entries of the links mapping in preserved order —
at most 4 buttons, and exactly one per link when there are at most 4
links. -/
theorem C10_links_capped :
    (∀ (ae : String → Bool) (p : Project),
      cardLinkButtons (renderCard ae p) = p.links.take 4 ∧
      (cardLinkButtons (renderCard ae p)).length ≤ 4) ∧
    (∀ (ae : String → Bool) (p : Project), p.links.length ≤ 4 →
      cardLinkButtons (renderCard ae p) = p.links) := by
  constructor
  · intro ae p
    refine ⟨cardLinkButtons_renderCard ae p, ?_⟩
    rw [cardLinkButtons_renderCard ae p]
    simp
  · intro ae p hlen
    rw [cardLinkButtons_renderCard ae p]
    exact List.take_of_length_le hlen

/-- C10 witness: the second part of `C10_links_capped` at a concrete
project with two links. -/
theorem C10_links_capped_witness :
    cardLinkButtons
        (renderCard (fun _ => false)
          ⟨"P", "p.png", none, [], [("Repo", "u1"), ("Demo", "u2")]⟩) =
      [("Repo", "u1"), ("Demo", "u2")] :=
  C10_links_capped.2 (fun _ => false)
    ⟨"P", "p.png", none, [], [("Repo", "u1"), ("Demo", "u2")]⟩ (by decide)

end Portfolio
